import Mathlib

/-!
Shallow embedding of the string-analysis service (`src/core` of the
repository): the analyzer (`utils.analyze_string`), the natural-language
query parser (`utils.parse_natural_language_query`), the filter engine of
`views.StringCreateListView.get`, and the HTTP status decisions of
`views.StringCreateListView.post` and `views.NaturalLanguageFilterView.get`.

Python strings are modelled as `List Char`.  Case folding uses
`Char.toLower` (ASCII; the queries and examples in play are ASCII).
`hashlib.sha256` is an external library, so the embedding is parameterized
over the hash function `sha256 : List Char → List Char`.
-/

namespace StringService

/-- Python `str.isspace` on the ASCII whitespace characters
(space, tab, newline, carriage return, vertical tab, form feed). -/
def pyIsSpace (c : Char) : Bool :=
  c = ' ' || c = '\t' || c = '\n' || c = '\r' || c = '\x0b' || c = '\x0c'

/-- Python `str.strip()`: drop leading and trailing whitespace. -/
def pyStrip (s : List Char) : List Char :=
  ((s.dropWhile pyIsSpace).reverse.dropWhile pyIsSpace).reverse

/-- Python `str.lower()` (ASCII case folding). -/
def pyLower (s : List Char) : List Char := s.map Char.toLower

/-- Python `pat in s`: substring containment. -/
def containsSub (s pat : List Char) : Bool :=
  pat.isPrefixOf s ||
    match s with
    | [] => false
    | _ :: t => containsSub t pat

/-! ## Analyzer (`src/core/utils.py`) -/

/-- Embeds `check_palindrome`: lowercase the value and compare with its
own reversal (whitespace significant). -/
def check_palindrome (value : List Char) : Bool :=
  let cleaned := pyLower value
  cleaned == cleaned.reverse

/-- Embeds `count_unique_characters`: `len(set(value))`. -/
def count_unique_characters (value : List Char) : Nat :=
  value.toFinset.card

/-- Number of maximal non-whitespace runs; the flag records whether the
previous character belonged to a run. -/
def countWordsAux (inWord : Bool) : List Char → Nat
  | [] => 0
  | c :: t =>
    if pyIsSpace c then countWordsAux false t
    else (if inWord then 0 else 1) + countWordsAux true t

/-- Embeds `count_words`: `len(value.split())`, the number of maximal
non-whitespace runs. -/
def count_words (value : List Char) : Nat :=
  countWordsAux false value

/-- Embeds `calculate_character_frequency`: `dict(Counter(value))`, as an
association list from each distinct character to its occurrence count
(the iteration order of the Python dict is not significant here). -/
def calculate_character_frequency (value : List Char) : List (Char × Nat) :=
  value.dedup.map (fun c => (c, value.count c))

/-- The computed properties of `analyze_string` (the `sha256_hash` field
comes from the external `hashlib` function passed as a parameter). -/
structure Analysis where
  value : List Char
  sha256_hash : List Char
  length : Nat
  is_palindrome : Bool
  unique_characters : Nat
  word_count : Nat
  character_frequency_map : List (Char × Nat)
deriving Repr, DecidableEq

/-- Embeds `analyze_string`. -/
def analyze_string (sha256 : List Char → List Char) (value : List Char) : Analysis :=
  { value := value
    sha256_hash := sha256 value
    length := value.length
    is_palindrome := check_palindrome value
    unique_characters := count_unique_characters value
    word_count := count_words value
    character_frequency_map := calculate_character_frequency value }

/-! ## Query parser (`parse_natural_language_query`) -/

/-- Numeric value of a run of decimal digits (Python `int`). -/
def digitsToNat (ds : List Char) : Nat :=
  ds.foldl (fun n c => 10 * n + (c.toNat - '0'.toNat)) 0

/-- Embeds `re.search` for patterns of the shape `pre(\d+)post` with the
group capturing a maximal digit run: scan positions left to right, at each
position require the literal `pre`, at least one digit, then the literal
`post`; return the captured integer of the leftmost match. -/
def searchNumPat (pre post : List Char) : List Char → Option Nat
  | [] => none
  | c :: t =>
    if pre.isPrefixOf (c :: t) then
      let r := (c :: t).drop pre.length
      let ds := r.takeWhile Char.isDigit
      if ds.isEmpty then searchNumPat pre post t
      else if post.isPrefixOf (r.drop ds.length) then some (digitsToNat ds)
      else searchNumPat pre post t
    else searchNumPat pre post t

def isLowerAZ (c : Char) : Bool := 'a' ≤ c && c ≤ 'z'

/-- Match ` ([a-z])` at the head: a space then a lowercase letter. -/
def spaceLetter : List Char → Option Char
  | ' ' :: c :: _ => if isLowerAZ c then some c else none
  | _ => none

/-- Match `(?: the letter)? ([a-z])` at the head: greedily try the
optional ` the letter` first, backtracking to the empty alternative. -/
def optTheLetter (r : List Char) : Option Char :=
  match (if (" the letter".toList).isPrefixOf r then spaceLetter (r.drop 11) else none) with
  | some c => some c
  | none => spaceLetter r

/-- Match `contain(?:ing|s)?(?: the letter)? ([a-z])` at the head, with
the backtracking order of the regex engine (`ing`, then `s`, then the
empty alternative). -/
def containAt (s : List Char) : Option Char :=
  if ("contain".toList).isPrefixOf s then
    let r := s.drop 7
    match (if ("ing".toList).isPrefixOf r then optTheLetter (r.drop 3) else none) with
    | some c => some c
    | none =>
      match (if ("s".toList).isPrefixOf r then optTheLetter (r.drop 1) else none) with
      | some c => some c
      | none => optTheLetter r
  else none

/-- Match `with(?: the letter)? ([a-z])` at the head. -/
def withAt (s : List Char) : Option Char :=
  if ("with".toList).isPrefixOf s then optTheLetter (s.drop 4) else none

/-- Match `that have(?: the letter)? ([a-z])` at the head. -/
def thatHaveAt (s : List Char) : Option Char :=
  if ("that have".toList).isPrefixOf s then optTheLetter (s.drop 9) else none

/-- Leftmost `re.search` for a position matcher returning a captured
character. -/
def searchChar (patAt : List Char → Option Char) : List Char → Option Char
  | [] => none
  | c :: t =>
    match patAt (c :: t) with
    | some ch => some ch
    | none => searchChar patAt t

/-- The `contains_patterns` loop: try each pattern over the whole query in
order, stopping at the first pattern that matches anywhere. -/
def searchContainsChar (q : List Char) : Option Char :=
  match searchChar containAt q with
  | some c => some c
  | none =>
    match searchChar withAt q with
    | some c => some c
    | none => searchChar thatHaveAt q

/-- The palindrome keyword check:
`any(keyword in query_lower for keyword in palindrome_keywords)`. -/
def palindromeKeywordMatch (q : List Char) : Bool :=
  containsSub q ("palindrome".toList) || containsSub q ("palindromic".toList) ||
    containsSub q ("reads the same".toList)

/-- The parsed filter set (the Python `filters` dict); a `none` field is
an absent key.  Values are integers as in Python (`shorter than 0` really
produces `max_length = -1`). -/
structure Filters where
  is_palindrome : Option Bool := none
  word_count : Option Int := none
  min_length : Option Int := none
  max_length : Option Int := none
  contains_character : Option Char := none
deriving Repr, DecidableEq

/-- Recognizer block: the palindrome keyword check. -/
def applyPalindromeKeywords (q : List Char) (f : Filters) : Filters :=
  if palindromeKeywordMatch q then { f with is_palindrome := some true } else f

/-- Recognizer block: the `single word` / `one word` / `two word` /
`three word` phrase chain (first match wins within the chain). -/
def applyWordPhrases (q : List Char) (f : Filters) : Filters :=
  if containsSub q ("single word".toList) || containsSub q ("one word".toList) then
    { f with word_count := some 1 }
  else if containsSub q ("two word".toList) then { f with word_count := some 2 }
  else if containsSub q ("three word".toList) then { f with word_count := some 3 }
  else f

/-- Recognizer block: `with (\d+) words?`. -/
def applyWithWords (q : List Char) (f : Filters) : Filters :=
  match searchNumPat ("with ".toList) (" word".toList) q with
  | some n => { f with word_count := some (n : Int) }
  | none => f

/-- Recognizer block: `longer than (\d+)` sets `min_length = N + 1`. -/
def applyLongerThan (q : List Char) (f : Filters) : Filters :=
  match searchNumPat ("longer than ".toList) [] q with
  | some n => { f with min_length := some ((n : Int) + 1) }
  | none => f

/-- Recognizer block: `shorter than (\d+)` sets `max_length = N - 1`. -/
def applyShorterThan (q : List Char) (f : Filters) : Filters :=
  match searchNumPat ("shorter than ".toList) [] q with
  | some n => { f with max_length := some ((n : Int) - 1) }
  | none => f

/-- Recognizer block: `at least (\d+) characters?` sets `min_length = N`. -/
def applyAtLeast (q : List Char) (f : Filters) : Filters :=
  match searchNumPat ("at least ".toList) (" character".toList) q with
  | some n => { f with min_length := some (n : Int) }
  | none => f

/-- Recognizer block: `at most (\d+) characters?` sets `max_length = N`. -/
def applyAtMost (q : List Char) (f : Filters) : Filters :=
  match searchNumPat ("at most ".toList) (" character".toList) q with
  | some n => { f with max_length := some (n : Int) }
  | none => f

/-- Recognizer block: the `contains_patterns` loop. -/
def applyContainsPatterns (q : List Char) (f : Filters) : Filters :=
  match searchContainsChar q with
  | some c => { f with contains_character := some c }
  | none => f

/-- Recognizer block: the `first vowel` special case. -/
def applyFirstVowel (q : List Char) (f : Filters) : Filters :=
  if containsSub q ("first vowel".toList) then { f with contains_character := some 'a' } else f

/-- The recognizer cascade of `parse_natural_language_query`, in source
order, applied to the lowered and stripped query. -/
def computeFilters (q : List Char) : Filters :=
  let f : Filters := {}
  let f := applyPalindromeKeywords q f
  let f := applyWordPhrases q f
  let f := applyWithWords q f
  let f := applyLongerThan q f
  let f := applyShorterThan q f
  let f := applyAtLeast q f
  let f := applyAtMost q f
  let f := applyContainsPatterns q f
  let f := applyFirstVowel q f
  f

/-- The three `ValueError` messages of `parse_natural_language_query`:
empty query, conflicting length filters, no recognizable filter. -/
inductive ParseFail where
  | emptyQuery
  | conflict
  | noFilters
deriving Repr, DecidableEq

/-- The final conflict check: both bounds set and `min_length > max_length`. -/
def hasLengthConflict (f : Filters) : Bool :=
  match f.min_length, f.max_length with
  | some mn, some mx => mn > mx
  | _, _ => false

/-- Embeds `parse_natural_language_query`: lower and strip the query,
reject the empty query, run the recognizers, reject conflicting bounds,
reject an empty filter set. -/
def parse_natural_language_query (query : List Char) : Except ParseFail Filters :=
  let query_lower := pyStrip (pyLower query)
  if query_lower.isEmpty then .error .emptyQuery
  else
    let filters := computeFilters query_lower
    if hasLengthConflict filters then .error .conflict
    else if filters = ({} : Filters) then .error .noFilters
    else .ok filters

/-! ## HTTP views (`src/core/views.py`) -/

/-- The `value` field of the POST body: absent, a JSON string, an `int`
or `float` value — which `CharField.to_internal_value` deliberately
coerces with `str(data)`, carried here as the `r` field — or any other
JSON value (bool, null, list, object), which `CharField` rejects as
invalid. -/
inductive PostBody where
  | missing
  | strVal (s : List Char)
  | numVal (r : List Char)
  | otherVal
deriving Repr, DecidableEq

/-- Embeds the status decision of `StringCreateListView.post` together
with the record it creates.  `StringInputSerializer.value` is a
`CharField(required=True, allow_blank=False)` with the default whitespace
trimming, so the validated value is `str(data).strip()` and a blank
result fails validation; on failure the view answers 400 when the raw
value is a string and 422 otherwise.  An `int` or `float` value is
coerced to its string representation and validated like a string (its
representation never strips to blank, so in practice it is always
accepted); a bool, null, list or object fails `CharField` outright.  The
store is the list of existing `sha256_hash` values. -/
def postString (sha256 : List Char → List Char) (store : List (List Char))
    (body : PostBody) : Nat × Option Analysis :=
  match body with
  | .missing => (400, none)
  | .otherVal => (422, none)
  | .strVal s =>
    if (pyStrip s).isEmpty then (400, none)
    else
      let value := pyStrip s
      let props := analyze_string sha256 value
      if store.contains props.sha256_hash then (409, none)
      else (201, some props)
  | .numVal r =>
    if (pyStrip r).isEmpty then (422, none)
    else
      let value := pyStrip r
      let props := analyze_string sha256 value
      if store.contains props.sha256_hash then (409, none)
      else (201, some props)

/-- The stored record fields of `AnalyzedString` that the list endpoints
filter on; the list order stands for the store's default ordering
(`-created_at`). -/
structure StoredRecord where
  value : List Char
  sha256_hash : List Char
  length : Int
  is_palindrome : Bool
  unique_characters : Int
  word_count : Int
deriving Repr, DecidableEq

/-- Django `value__icontains`: case-insensitive substring containment. -/
def icontains (v pat : List Char) : Bool :=
  containsSub (pyLower v) (pyLower pat)

/-- Embeds the queryset narrowing of `StringCreateListView.get`: each set
field of the filter set narrows the records in turn, in source order. -/
def applyFilters (f : Filters) (rs : List StoredRecord) : List StoredRecord :=
  let rs :=
    match f.is_palindrome with
    | some b => rs.filter (fun r => r.is_palindrome == b)
    | none => rs
  let rs :=
    match f.min_length with
    | some n => rs.filter (fun r => decide (n ≤ r.length))
    | none => rs
  let rs :=
    match f.max_length with
    | some n => rs.filter (fun r => decide (r.length ≤ n))
    | none => rs
  let rs :=
    match f.word_count with
    | some n => rs.filter (fun r => r.word_count == n)
    | none => rs
  let rs :=
    match f.contains_character with
    | some c => rs.filter (fun r => icontains r.value [c])
    | none => rs
  rs

/-- Embeds the status decision of `NaturalLanguageFilterView.get`: a
missing or empty `query` parameter is falsy (400); a `ValueError` whose
message contains `conflicting` — exactly the length-conflict error — is
answered 422, any other `ValueError` 400; otherwise 200. -/
def naturalLanguageFilterStatus (query : Option (List Char)) : Nat :=
  match query with
  | none => 400
  | some q =>
    if q.isEmpty then 400
    else
      match parse_natural_language_query q with
      | .error .conflict => 422
      | .error _ => 400
      | .ok _ => 200

/-! ## Helper lemmas: which recognizer block touches which field -/

theorem applyPalindromeKeywords_min_length (q : List Char) (f : Filters) :
    (applyPalindromeKeywords q f).min_length = f.min_length := by
  unfold applyPalindromeKeywords; split <;> rfl

theorem applyWordPhrases_min_length (q : List Char) (f : Filters) :
    (applyWordPhrases q f).min_length = f.min_length := by
  unfold applyWordPhrases
  repeat' split
  all_goals rfl

theorem applyWithWords_min_length (q : List Char) (f : Filters) :
    (applyWithWords q f).min_length = f.min_length := by
  unfold applyWithWords; split <;> rfl

theorem applyShorterThan_min_length (q : List Char) (f : Filters) :
    (applyShorterThan q f).min_length = f.min_length := by
  unfold applyShorterThan; split <;> rfl

theorem applyAtMost_min_length (q : List Char) (f : Filters) :
    (applyAtMost q f).min_length = f.min_length := by
  unfold applyAtMost; split <;> rfl

theorem applyContainsPatterns_min_length (q : List Char) (f : Filters) :
    (applyContainsPatterns q f).min_length = f.min_length := by
  unfold applyContainsPatterns; split <;> rfl

theorem applyFirstVowel_min_length (q : List Char) (f : Filters) :
    (applyFirstVowel q f).min_length = f.min_length := by
  unfold applyFirstVowel; split <;> rfl

theorem applyAtLeast_min_length (q : List Char) (f : Filters) :
    (applyAtLeast q f).min_length =
      match searchNumPat ("at least ".toList) (" character".toList) q with
      | some n => some (n : Int)
      | none => f.min_length := by
  unfold applyAtLeast
  cases h : searchNumPat ("at least ".toList) (" character".toList) q <;> rfl

theorem applyLongerThan_min_length (q : List Char) (f : Filters) :
    (applyLongerThan q f).min_length =
      match searchNumPat ("longer than ".toList) [] q with
      | some n => some ((n : Int) + 1)
      | none => f.min_length := by
  unfold applyLongerThan
  cases h : searchNumPat ("longer than ".toList) [] q <;> rfl

theorem applyPalindromeKeywords_max_length (q : List Char) (f : Filters) :
    (applyPalindromeKeywords q f).max_length = f.max_length := by
  unfold applyPalindromeKeywords; split <;> rfl

theorem applyWordPhrases_max_length (q : List Char) (f : Filters) :
    (applyWordPhrases q f).max_length = f.max_length := by
  unfold applyWordPhrases
  repeat' split
  all_goals rfl

theorem applyWithWords_max_length (q : List Char) (f : Filters) :
    (applyWithWords q f).max_length = f.max_length := by
  unfold applyWithWords; split <;> rfl

theorem applyLongerThan_max_length (q : List Char) (f : Filters) :
    (applyLongerThan q f).max_length = f.max_length := by
  unfold applyLongerThan; split <;> rfl

theorem applyAtLeast_max_length (q : List Char) (f : Filters) :
    (applyAtLeast q f).max_length = f.max_length := by
  unfold applyAtLeast; split <;> rfl

theorem applyContainsPatterns_max_length (q : List Char) (f : Filters) :
    (applyContainsPatterns q f).max_length = f.max_length := by
  unfold applyContainsPatterns; split <;> rfl

theorem applyFirstVowel_max_length (q : List Char) (f : Filters) :
    (applyFirstVowel q f).max_length = f.max_length := by
  unfold applyFirstVowel; split <;> rfl

theorem applyShorterThan_max_length (q : List Char) (f : Filters) :
    (applyShorterThan q f).max_length =
      match searchNumPat ("shorter than ".toList) [] q with
      | some n => some ((n : Int) - 1)
      | none => f.max_length := by
  unfold applyShorterThan
  cases h : searchNumPat ("shorter than ".toList) [] q <;> rfl

theorem applyAtMost_max_length (q : List Char) (f : Filters) :
    (applyAtMost q f).max_length =
      match searchNumPat ("at most ".toList) (" character".toList) q with
      | some n => some (n : Int)
      | none => f.max_length := by
  unfold applyAtMost
  cases h : searchNumPat ("at most ".toList) (" character".toList) q <;> rfl

/-- The final `min_length` of the cascade: the `at least` recognizer runs
after `longer than` and overwrites it. -/
theorem computeFilters_min_length (q : List Char) :
    (computeFilters q).min_length =
      match searchNumPat ("at least ".toList) (" character".toList) q with
      | some n => some (n : Int)
      | none =>
        match searchNumPat ("longer than ".toList) [] q with
        | some n => some ((n : Int) + 1)
        | none => none := by
  unfold computeFilters
  rw [applyFirstVowel_min_length, applyContainsPatterns_min_length, applyAtMost_min_length,
    applyAtLeast_min_length]
  cases h : searchNumPat ("at least ".toList) (" character".toList) q
  · rw [applyShorterThan_min_length, applyLongerThan_min_length]
    cases h2 : searchNumPat ("longer than ".toList) [] q
    · rw [applyWithWords_min_length, applyWordPhrases_min_length,
        applyPalindromeKeywords_min_length]
    · rfl
  · rfl

/-- The final `max_length` of the cascade: the `at most` recognizer runs
after `shorter than` and overwrites it. -/
theorem computeFilters_max_length (q : List Char) :
    (computeFilters q).max_length =
      match searchNumPat ("at most ".toList) (" character".toList) q with
      | some n => some (n : Int)
      | none =>
        match searchNumPat ("shorter than ".toList) [] q with
        | some n => some ((n : Int) - 1)
        | none => none := by
  unfold computeFilters
  rw [applyFirstVowel_max_length, applyContainsPatterns_max_length, applyAtMost_max_length]
  cases h : searchNumPat ("at most ".toList) (" character".toList) q
  · rw [applyAtLeast_max_length, applyShorterThan_max_length]
    cases h2 : searchNumPat ("shorter than ".toList) [] q
    · rw [applyLongerThan_max_length, applyWithWords_max_length, applyWordPhrases_max_length,
        applyPalindromeKeywords_max_length]
    · rfl
  · rfl

/-! ## Claim theorems -/

/-- C1 (amended): `POST /strings` answers 400 when `value` is missing;
for a string `value`, the serializer trims whitespace and rejects a blank
result, so a string whose stripped form is empty gets 400 (not 201 as
claimed for empty and whitespace-only strings); otherwise the trimmed
value is analyzed, 409 is returned when its hash is already stored, and
201 with the created record otherwise.  An `int` or `float` value is not
rejected with 422 as claimed: `CharField` coerces it to its string
representation, which is analyzed like a string value (409 on a
duplicate hash, 201 otherwise); 422 occurs only for the values
`CharField` cannot coerce (bool, null, list, object) — and, on the
unreachable path where a coerced representation strips to blank, because
the raw value is not a `str` instance. -/
theorem C1_post_statuses :
    ∀ (sha256 : List Char → List Char) (store : List (List Char)) (s : List Char),
      postString sha256 store .missing = (400, none) ∧
      postString sha256 store .otherVal = (422, none) ∧
      (pyStrip s = [] → postString sha256 store (.strVal s) = (400, none)) ∧
      (pyStrip s ≠ [] → sha256 (pyStrip s) ∈ store →
        (postString sha256 store (.strVal s)).1 = 409) ∧
      (pyStrip s ≠ [] → sha256 (pyStrip s) ∉ store →
        postString sha256 store (.strVal s) =
          (201, some (analyze_string sha256 (pyStrip s)))) ∧
      (pyStrip s = [] → postString sha256 store (.numVal s) = (422, none)) ∧
      (pyStrip s ≠ [] → sha256 (pyStrip s) ∈ store →
        (postString sha256 store (.numVal s)).1 = 409) ∧
      (pyStrip s ≠ [] → sha256 (pyStrip s) ∉ store →
        postString sha256 store (.numVal s) =
          (201, some (analyze_string sha256 (pyStrip s)))) := by
  intro sha256 store s
  refine ⟨rfl, rfl, ?_, ?_, ?_, ?_, ?_, ?_⟩
  · intro h
    simp [postString, h]
  · intro h hmem
    simp [postString, List.isEmpty_iff, h, analyze_string, hmem]
  · intro h hmem
    simp [postString, List.isEmpty_iff, h, analyze_string, hmem]
  · intro h
    simp [postString, h]
  · intro h hmem
    simp [postString, List.isEmpty_iff, h, analyze_string, hmem]
  · intro h hmem
    simp [postString, List.isEmpty_iff, h, analyze_string, hmem]

/-- Witness for C1: the branches at concrete inputs, including a numeric
`value` (the JSON number `42`, coerced by `CharField` to `42`) that is
created with 201 rather than rejected with 422. -/
theorem C1_post_statuses_witness :
    postString (fun v => v) [] .missing = (400, none) ∧
    postString (fun v => v) [] .otherVal = (422, none) ∧
    postString (fun v => v) [] (.strVal ("  ".toList)) = (400, none) ∧
    (postString (fun v => v) [("abc".toList)] (.strVal (" abc ".toList))).1 = 409 ∧
    postString (fun v => v) [] (.strVal (" abc ".toList)) =
      (201, some (analyze_string (fun v => v) ("abc".toList))) ∧
    (postString (fun v => v) [("42".toList)] (.numVal ("42".toList))).1 = 409 ∧
    postString (fun v => v) [] (.numVal ("42".toList)) =
      (201, some (analyze_string (fun v => v) ("42".toList))) := by
  refine ⟨(C1_post_statuses _ [] ("  ".toList)).1,
    (C1_post_statuses _ [] ("  ".toList)).2.1,
    (C1_post_statuses _ [] ("  ".toList)).2.2.1 (by decide),
    (C1_post_statuses _ [("abc".toList)] (" abc ".toList)).2.2.2.1 (by decide) (by decide),
    ?_, (C1_post_statuses _ [("42".toList)] ("42".toList)).2.2.2.2.2.2.1 (by decide) (by decide),
    ?_⟩
  · have h :=
      (C1_post_statuses (fun v => v) [] (" abc ".toList)).2.2.2.2.1 (by decide) (by decide)
    simpa using h
  · have h :=
      (C1_post_statuses (fun v => v) [] ("42".toList)).2.2.2.2.2.2.2 (by decide) (by decide)
    simpa using h

/-- Counterexample to C1 as stated: posting the empty string to an empty
store yields 400 (the serializer rejects blank values), not 201; and
posting the JSON number `42` yields 201 (CharField coerces numerics to
strings), not 422 as the claim requires for a non-string `value`. -/
theorem C1_original_claim_cex :
    (postString (fun v => v) [] (.strVal ("".toList))).1 = 400 ∧
    (postString (fun v => v) [] (.strVal ("".toList))).1 ≠ 201 ∧
    (postString (fun v => v) [] (.numVal ("42".toList))).1 = 201 ∧
    (postString (fun v => v) [] (.numVal ("42".toList))).1 ≠ 422 := by
  decide

/-- C2: the analyzer maps the empty string to the degenerate record
(length 0, palindrome true, no unique characters, no words, empty
frequency map), and is a total function: every string yields the record
of its computed properties. -/
theorem C2_analyzer_empty_and_total :
    ∀ sha256 : List Char → List Char,
      (analyze_string sha256 []).length = 0 ∧
      (analyze_string sha256 []).is_palindrome = true ∧
      (analyze_string sha256 []).unique_characters = 0 ∧
      (analyze_string sha256 []).word_count = 0 ∧
      (analyze_string sha256 []).character_frequency_map = [] ∧
      ∀ value : List Char,
        analyze_string sha256 value =
          { value := value
            sha256_hash := sha256 value
            length := value.length
            is_palindrome := check_palindrome value
            unique_characters := count_unique_characters value
            word_count := count_words value
            character_frequency_map := calculate_character_frequency value } :=
  fun _ => ⟨rfl, rfl, rfl, rfl, rfl, fun _ => rfl⟩

/-- C3: for every string, `is_palindrome` holds exactly when the
lower-cased value equals its own reversal (whitespace significant); in
particular `racecar` and `Racecar` are palindromes and `hello` is not. -/
theorem C3_palindrome_characterization :
    (∀ (sha256 : List Char → List Char) (s : List Char),
      (analyze_string sha256 s).is_palindrome = true ↔ pyLower s = (pyLower s).reverse) ∧
    (analyze_string (fun v => v) ("racecar".toList)).is_palindrome = true ∧
    (analyze_string (fun v => v) ("Racecar".toList)).is_palindrome = true ∧
    (analyze_string (fun v => v) ("hello".toList)).is_palindrome = false := by
  refine ⟨fun _ s => ?_, by decide, by decide, by decide⟩
  simp [analyze_string, check_palindrome]

/-- C4: the character-frequency map of an analyzed string has exactly the
distinct characters of the value as keys, maps each to its occurrence
count, and its values sum to the length. -/
theorem C4_character_frequency_invariants :
    ∀ (sha256 : List Char → List Char) (v : List Char),
      ((analyze_string sha256 v).character_frequency_map.map Prod.fst = v.dedup) ∧
      (∀ c : Char,
        c ∈ (analyze_string sha256 v).character_frequency_map.map Prod.fst ↔ c ∈ v) ∧
      (∀ p ∈ (analyze_string sha256 v).character_frequency_map, p.2 = v.count p.1) ∧
      ((analyze_string sha256 v).character_frequency_map.map Prod.snd).sum =
        (analyze_string sha256 v).length := by
  intro sha256 v
  have hfst : (analyze_string sha256 v).character_frequency_map.map Prod.fst = v.dedup := by
    simp [analyze_string, calculate_character_frequency, List.map_map, Function.comp_def]
  refine ⟨hfst, ?_, ?_, ?_⟩
  · intro c
    rw [hfst, List.mem_dedup]
  · intro p hp
    simp only [analyze_string, calculate_character_frequency, List.mem_map] at hp
    obtain ⟨c, _, rfl⟩ := hp
    rfl
  · simp [analyze_string, calculate_character_frequency, List.map_map, Function.comp_def,
      List.sum_map_count_dedup_eq_length]

/-- Witness for C4: the invariants evaluated on `banana`, with the count
hypothesis discharged for the pair `('n', 2)` of its frequency map. -/
theorem C4_character_frequency_invariants_witness :
    ((analyze_string (fun v => v) ("banana".toList)).character_frequency_map.map Prod.fst =
      ("banana".toList).dedup) ∧
    (('a' : Char) ∈
        (analyze_string (fun v => v) ("banana".toList)).character_frequency_map.map Prod.fst ↔
      ('a' : Char) ∈ ("banana".toList)) ∧
    ((('n', 2) : Char × Nat).2 = ("banana".toList).count (('n', 2) : Char × Nat).1) ∧
    (((analyze_string (fun v => v) ("banana".toList)).character_frequency_map.map Prod.snd).sum =
      (analyze_string (fun v => v) ("banana".toList)).length) :=
  ⟨(C4_character_frequency_invariants (fun v => v) ("banana".toList)).1,
   (C4_character_frequency_invariants (fun v => v) ("banana".toList)).2.1 'a',
   (C4_character_frequency_invariants (fun v => v) ("banana".toList)).2.2.1
     (('n', 2) : Char × Nat) (by decide),
   (C4_character_frequency_invariants (fun v => v) ("banana".toList)).2.2.2⟩

/-- C5: parsing `strings that are palindromic and longer than 5
characters` yields exactly the palindrome flag and a minimum length of 6,
with every other field unset. -/
theorem C5_example_query :
    parse_natural_language_query
        ("strings that are palindromic and longer than 5 characters".toList) =
      .ok { is_palindrome := some true, word_count := none, min_length := some 6,
            max_length := none, contains_character := none } := by
  rfl

/-- C6: `longer than N` sets `min_length = N + 1` (when no inclusive
phrase is present), `shorter than N` sets `max_length = N - 1` (when no
inclusive phrase is present), `at least N characters` sets
`min_length = N`, `at most N characters` sets `max_length = N`, and the
inclusive recognizers run later, so their value always wins. -/
theorem C6_length_phrases :
    ∀ (q : List Char) (n m : Nat),
      (searchNumPat ("longer than ".toList) [] q = some n →
        searchNumPat ("at least ".toList) (" character".toList) q = none →
        (computeFilters q).min_length = some ((n : Int) + 1)) ∧
      (searchNumPat ("shorter than ".toList) [] q = some n →
        searchNumPat ("at most ".toList) (" character".toList) q = none →
        (computeFilters q).max_length = some ((n : Int) - 1)) ∧
      (searchNumPat ("at least ".toList) (" character".toList) q = some m →
        (computeFilters q).min_length = some (m : Int)) ∧
      (searchNumPat ("at most ".toList) (" character".toList) q = some m →
        (computeFilters q).max_length = some (m : Int)) := by
  intro q n m
  refine ⟨?_, ?_, ?_, ?_⟩
  · intro h1 h2; rw [computeFilters_min_length, h2, h1]
  · intro h1 h2; rw [computeFilters_max_length, h2, h1]
  · intro h; rw [computeFilters_min_length, h]
  · intro h; rw [computeFilters_max_length, h]

/-- Witness for C6: the four length phrases at concrete queries, the
inclusive forms winning over the exclusive forms present in the same
query. -/
theorem C6_length_phrases_witness :
    (computeFilters ("longer than 5 and shorter than 20".toList)).min_length = some 6 ∧
    (computeFilters ("longer than 5 and shorter than 20".toList)).max_length = some 19 ∧
    (computeFilters ("at least 9 characters and longer than 5".toList)).min_length = some 9 ∧
    (computeFilters ("at most 15 characters and shorter than 20".toList)).max_length = some 15 :=
  ⟨(C6_length_phrases ("longer than 5 and shorter than 20".toList) 5 0).1 (by decide) (by decide),
   (C6_length_phrases ("longer than 5 and shorter than 20".toList) 20 0).2.1
     (by decide) (by decide),
   (C6_length_phrases ("at least 9 characters and longer than 5".toList) 0 9).2.2.1 (by decide),
   (C6_length_phrases ("at most 15 characters and shorter than 20".toList) 0 15).2.2.2
     (by decide)⟩

/-- C7: parsing fails with the empty-query error on every query that is
empty or whitespace-only after stripping, with a non-conflict error on
every query on which no recognizer sets a field, and in particular on the
empty string and on `banana`. -/
theorem C7_unparseable_queries :
    (∀ q : List Char, pyStrip (pyLower q) = [] →
      parse_natural_language_query q = .error .emptyQuery) ∧
    (∀ q : List Char, computeFilters (pyStrip (pyLower q)) = ({} : Filters) →
      parse_natural_language_query q = .error .emptyQuery ∨
      parse_natural_language_query q = .error .noFilters) ∧
    parse_natural_language_query ("".toList) = .error .emptyQuery ∧
    parse_natural_language_query ("banana".toList) = .error .noFilters := by
  refine ⟨?_, ?_, rfl, rfl⟩
  · intro q h
    simp [parse_natural_language_query, h]
  · intro q h
    by_cases he : (pyStrip (pyLower q)).isEmpty
    · exact Or.inl (by simp [parse_natural_language_query, he])
    · refine Or.inr ?_
      simp [parse_natural_language_query, he, h, hasLengthConflict]

/-- Witness for C7: a whitespace-only query and a query no recognizer
matches. -/
theorem C7_unparseable_queries_witness :
    parse_natural_language_query ("   ".toList) = .error .emptyQuery ∧
    (parse_natural_language_query ("zzz".toList) = .error .emptyQuery ∨
      parse_natural_language_query ("zzz".toList) = .error .noFilters) :=
  ⟨C7_unparseable_queries.1 ("   ".toList) (by decide),
   C7_unparseable_queries.2.1 ("zzz".toList) (by decide)⟩

/-- C8: when both bounds are set with `min_length > max_length` the
parser fails with the conflict error — an error distinct from the two
plain parse errors — and the natural-language endpoint answers 422;
`shorter than 3` alone parses to `max_length = 2`. -/
theorem C8_conflict_error :
    (∀ (q : List Char) (mn mx : Int),
      pyStrip (pyLower q) ≠ [] →
      (computeFilters (pyStrip (pyLower q))).min_length = some mn →
      (computeFilters (pyStrip (pyLower q))).max_length = some mx →
      mx < mn →
      parse_natural_language_query q = .error .conflict ∧
      naturalLanguageFilterStatus (some q) = 422) ∧
    ParseFail.conflict ≠ ParseFail.emptyQuery ∧
    ParseFail.conflict ≠ ParseFail.noFilters ∧
    parse_natural_language_query ("shorter than 3".toList) =
      .ok { is_palindrome := none, word_count := none, min_length := none,
            max_length := some 2, contains_character := none } := by
  refine ⟨?_, by decide, by decide, rfl⟩
  intro q mn mx hne hmn hmx hlt
  have hq : q ≠ [] := by
    intro hq0
    exact hne (by rw [hq0]; rfl)
  have hparse : parse_natural_language_query q = .error .conflict := by
    simp [parse_natural_language_query, List.isEmpty_iff, hne, hasLengthConflict, hmn, hmx,
      hlt]
  refine ⟨hparse, ?_⟩
  simp [naturalLanguageFilterStatus, List.isEmpty_iff, hq, hparse]

/-- Witness for C8: `at least 10 characters and shorter than 3` derives
`min_length = 10` and `max_length = 2`, raising the conflict error,
answered 422. -/
theorem C8_conflict_error_witness :
    parse_natural_language_query ("at least 10 characters and shorter than 3".toList) =
      .error .conflict ∧
    naturalLanguageFilterStatus
        (some ("at least 10 characters and shorter than 3".toList)) = 422 :=
  C8_conflict_error.1 ("at least 10 characters and shorter than 3".toList) 10 2
    (by decide) (by decide) (by decide) (by decide)

/-- C9: applying `{min_length: 3, contains_character: 'a'}` returns
exactly the records whose length is at least 3 and whose value contains
`a` case-insensitively, in store order, and applying the empty filter set
returns all records unchanged. -/
theorem C9_filter_engine :
    ∀ rs : List StoredRecord,
      applyFilters { min_length := some 3, contains_character := some 'a' } rs =
        rs.filter (fun r => decide ((3 : Int) ≤ r.length) && icontains r.value ['a']) ∧
      applyFilters ({} : Filters) rs = rs := by
  intro rs
  constructor
  · simp [applyFilters, List.filter_filter, Bool.and_comm]
  · rfl

/-- C10: `unique_characters` equals the number of keys of the
character-frequency map and never exceeds the length. -/
theorem C10_unique_characters_invariants :
    ∀ (sha256 : List Char → List Char) (v : List Char),
      (analyze_string sha256 v).unique_characters =
        (analyze_string sha256 v).character_frequency_map.length ∧
      (analyze_string sha256 v).unique_characters ≤ (analyze_string sha256 v).length := by
  intro sha256 v
  constructor
  · simp [analyze_string, count_unique_characters, calculate_character_frequency,
      List.card_toFinset]
  · simpa [analyze_string, count_unique_characters] using List.toFinset_card_le (l := v)

end StringService
